import Mathlib

set_option maxRecDepth 4000

/-!
Verification development for the Google-Maps lead scraper (`src/main.py`).

The pipeline's pure core is shallowly embedded: Python strings are `String`
over their character lists, Python `None` is `Option`, SQLite's `leads`
table is an association list keyed by the fingerprint primary key, and the
network is an explicit fetch oracle.  Wall-clock timestamps
(`updated_at`, `start_time`, …) are I/O effects outside the pure model and
are omitted from the embedded records.
-/

namespace Scraper

/-! ### Python string primitives (ASCII model)

`pyIsSpace` models the characters matched by Python's `\s` (ASCII range),
`pyStrip` models `str.strip()`, `strLower` models `str.lower()`,
`containsStr hay needle` models `needle in hay`, and `countChar` models
`str.count` for a single character. -/

def pyIsSpace (c : Char) : Bool :=
  c = ' ' || c = '\t' || c = '\n' || c = '\r' || c = '\x0b' || c = '\x0c'

/-- One pass of `re.sub(r"\s+", " ", s)`: every maximal whitespace run
becomes a single space.  The Boolean argument records whether we are
inside a whitespace run. -/
def collapseWS : List Char → Bool → List Char
  | [], _ => []
  | c :: cs, inRun =>
    if pyIsSpace c then
      if inRun then collapseWS cs true else ' ' :: collapseWS cs true
    else c :: collapseWS cs false

def pyStrip (l : List Char) : List Char :=
  ((l.dropWhile pyIsSpace).reverse.dropWhile pyIsSpace).reverse

def stripStr (s : String) : String := ⟨pyStrip s.data⟩

def strLower (s : String) : String := ⟨s.data.map Char.toLower⟩

def containsStr (hay needle : String) : Bool :=
  hay.data.tails.any (fun t => needle.data.isPrefixOf t)

def countChar (s : String) (c : Char) : Nat := s.data.count c

/-! ### Data model -/

/-- `Place` from `src/main.py` (lines 19–39), restricted to the fields the
embedded operations read (fingerprinting, dedup, the orchestrator's
per-listing decision).  The remaining fields (reviews, hours, category,
introduction, …) are presentation data never read by the verified
operations. -/
structure Place where
  name : String := ""
  address : String := ""
  website : String := ""
  phone_number : String := ""
  email : String := ""
  facebook : String := ""
  instagram : String := ""
  twitter : String := ""
  linkedin : String := ""
  deriving DecidableEq, Repr

/-- `normalize_key` (line 47): collapse whitespace, strip, lower-case. -/
def normalize_key (value : String) : String :=
  ⟨(pyStrip (collapseWS value.data false)).map Char.toLower⟩

/-- The `"|"`-joined normalized identity key hashed by `build_fingerprint`
(lines 50–57). -/
def build_fingerprint_key (place : Place) : String :=
  String.intercalate "|"
    [ normalize_key place.name
    , normalize_key place.address
    , normalize_key place.phone_number
    , normalize_key place.website ]

/-- `build_fingerprint` (line 50): the SHA-256 digest of the key.  The
digest itself is an arbitrary deterministic function `h` of the key; every
property proved below holds for any such `h`, in particular for SHA-256. -/
def build_fingerprint (h : String → String) (place : Place) : String :=
  h (build_fingerprint_key place)

/-- One row of the SQLite `leads` table (lines 64–75), minus the
`updated_at` wall-clock timestamp.  The `email` column is nullable. -/
structure LeadRec where
  name : String
  address : String
  website : String
  phone_number : String
  email : Option String
  deriving DecidableEq, Repr

/-- The `leads` table: an association list keyed by the `fingerprint`
primary key. -/
abbrev Store := List (String × LeadRec)

/-- `SELECT ... WHERE fingerprint = ?` on the keyed table. -/
def lookupFp : Store → String → Option LeadRec
  | [], _ => none
  | (k, v) :: rest, f => if k = f then some v else lookupFp rest f

/-- `is_duplicate` (lines 80–90): row absent ⇒ `False`; otherwise the
stored email is read with `(row[0] or "").strip()` and the call returns
`True` when that is non-empty, else `not bool(email)`. -/
def is_duplicate (store : Store) (fingerprint : String) (email : String) : Bool :=
  match lookupFp store fingerprint with
  | none => false
  | some r =>
    let existing_email := stripStr (r.email.getD "")
    if existing_email ≠ "" then true else decide (email = "")

/-- The row inserted by `upsert_lead` for a fresh fingerprint. -/
def insertRec (place : Place) : LeadRec :=
  { name := place.name
  , address := place.address
  , website := place.website
  , phone_number := place.phone_number
  , email := some place.email }

/-- The `ON CONFLICT ... DO UPDATE` row of `upsert_lead` (lines 97–106):
identity fields are overwritten unconditionally; the email is replaced
only when the stored one `IS NULL OR = ''`. -/
def mergeRec (old : LeadRec) (place : Place) : LeadRec :=
  { name := place.name
  , address := place.address
  , website := place.website
  , phone_number := place.phone_number
  , email := if old.email = none ∨ old.email = some "" then some place.email else old.email }

/-- `upsert_lead` (lines 92–118) on the keyed table. -/
def upsert_lead : Store → String → Place → Store
  | [], f, p => [(f, insertRec p)]
  | (k, v) :: rest, f, p =>
    if k = f then (k, mergeRec v p) :: rest
    else (k, v) :: upsert_lead rest f p

/-- A sequence of `upsert_lead` calls, the only operation that mutates the
store during a run. -/
def applyUpserts (store : Store) (ups : List (String × Place)) : Store :=
  ups.foldl (fun s fp => upsert_lead s fp.1 fp.2) store

/-- `ScrapingStats` (lines 120–132): the counters.  The wall-clock fields
(`start_time`, `end_time`, `average_time_per_business`) are I/O and are
outside the pure model. -/
structure ScrapingStats where
  total_searched : Nat := 0
  successful_scrapes : Nat := 0
  failed_scrapes : Nat := 0
  duplicates_skipped : Nat := 0
  emails_found : Nat := 0
  websites_visited : Nat := 0
  social_media_found : Nat := 0
  target_leads : Nat := 0
  deriving DecidableEq, Repr

/-- Result of processing one listing in the orchestrator loop. -/
structure StepResult where
  places : List Place
  stats : ScrapingStats
  store : Store
  deriving DecidableEq, Repr

/-- The per-listing body of `scrape_places` (lines 587–637), from the
`try` around the click/extract to the end of the save decision.  The
extraction outcome is a parameter: `Except.error` is an exception raised
while opening/extracting the listing (caught at lines 634–637), and
`Except.ok place` is a completed `extract_place`.  `fp` abstracts
`build_fingerprint` (the digest function applied to the identity key). -/
def processListing (include_without_email extract_emails dedup_enabled : Bool)
    (fp : Place → String) (extraction : Except String Place)
    (places : List Place) (stats : ScrapingStats) (store : Store) : StepResult :=
  match extraction with
  | .error _ =>
    ⟨places, { stats with failed_scrapes := stats.failed_scrapes + 1 }, store⟩
  | .ok place =>
    let stats1 :=
      if extract_emails = true ∧ place.website ≠ "" ∧ place.website ≠ "None Found" then
        { stats with websites_visited := stats.websites_visited + 1 }
      else stats
    let should_save := place.name ≠ "" ∧ (include_without_email = true ∨ place.email ≠ "")
    if should_save ∧ dedup_enabled = true ∧ is_duplicate store (fp place) place.email = true then
      ⟨places, { stats1 with duplicates_skipped := stats1.duplicates_skipped + 1 }, store⟩
    else if should_save then
      let stats2 := { stats1 with successful_scrapes := stats1.successful_scrapes + 1 }
      let stats3 :=
        if place.email ≠ "" then { stats2 with emails_found := stats2.emails_found + 1 }
        else stats2
      let stats4 :=
        if place.facebook ≠ "" ∨ place.instagram ≠ "" ∨ place.twitter ≠ "" ∨ place.linkedin ≠ "" then
          { stats3 with social_media_found := stats3.social_media_found + 1 }
        else stats3
      ⟨places ++ [place], stats4,
        if dedup_enabled = true then upsert_lead store (fp place) place else store⟩
    else
      ⟨places, { stats1 with failed_scrapes := stats1.failed_scrapes + 1 }, store⟩

/-! ### Website email resolver (lines 214–311)

The network and the e-mail regex scan are abstracted into a fetch oracle
`fetch : String → Option (List String)`: `fetch u = none` models
`requests.get(u)` raising (swallowed, loop continues), and
`fetch u = some es` models a successful fetch whose body contains the
ordered regex matches `es`.  The resolver returns its result together
with the list of page URLs it attempted to fetch. -/

/-- URL normalization (lines 225–226): prepend `https://` when no scheme. -/
def normalizeUrl (u : String) : String :=
  if u.startsWith "http://" || u.startsWith "https://" then u else "https://" ++ u

/-- `urlparse`-derived origin `scheme://netloc` (lines 229–230), for URLs
that already carry an `http(s)` scheme. -/
def baseUrlOf (u : String) : String :=
  let netloc : List Char → String :=
    fun l => ⟨l.takeWhile (fun c => ¬ (c = '/' ∨ c = '?' ∨ c = '#'))⟩
  if u.startsWith "https://" then "https://" ++ netloc (u.data.drop 8)
  else "http://" ++ netloc (u.data.drop 7)

/-- `pages_to_try` (lines 238–244): homepage then the four contact/about
pages resolved against the origin. -/
def pagesToTry (website_url : String) : List String :=
  let base := baseUrlOf website_url
  [ website_url
  , base ++ "/contact"
  , base ++ "/contact-us"
  , base ++ "/about"
  , base ++ "/about-us" ]

/-- The fetch loop (lines 248–265): try pages in order, swallow fetch
failures, accumulate matches, stop at the first page with at least one
match.  Returns `(all_emails, attempted page URLs)`. -/
def collectEmails (fetch : String → Option (List String)) : List String → List String × List String
  | [] => ([], [])
  | u :: rest =>
    match fetch u with
    | some es =>
      if es.isEmpty then
        let r := collectEmails fetch rest
        (es ++ r.1, u :: r.2)
      else (es, [u])
    | none =>
      let r := collectEmails fetch rest
      (r.1, u :: r.2)

/-- Filter-mode normalization (lines 267–269):
`(email_filter_mode or "strict").lower()`, then fall back to `"strict"`
when the result is not a recognized mode.  `none` models Python `None`. -/
def effectiveFilterMode (mode : Option String) : String :=
  let lowered :=
    match mode with
    | none => "strict"
    | some s => if s = "" then "strict" else strLower s
  if lowered = "strict" ∨ lowered = "balanced" ∨ lowered = "none" then lowered else "strict"

def placeholders : List String :=
  ["user@domain.com", "example.com", "yourname@", "email@domain.com"]

def invalid_substrings : List String :=
  [".jpg", ".png", ".gif", ".pdf", ".zip", "@mobile", "@desktop"]

def support_keywords : List String :=
  [ "support", "help", "info", "contact", "admin", "noreply", "no-reply"
  , "sales", "feedback", "abuse", "webmaster" ]

/-- The per-candidate filter of lines 286–299: a candidate survives when
it contains no placeholder fragment, no file-extension/device-suffix
substring, has exactly one `@` and at least one `.` (counted over the
whole match, lines 295), and — under strict mode — no role-account
keyword. -/
def passesFilters (strict : Bool) (email : String) : Bool :=
  let el := strLower email
  !(placeholders.any fun p => containsStr el p) &&
  !(invalid_substrings.any fun p => containsStr el p) &&
  (countChar email '@' == 1) &&
  decide (1 ≤ countChar email '.') &&
  (!strict || !(support_keywords.any fun k => containsStr el k))

/-- The accumulation loop of lines 286–301: surviving candidates are
appended in scan order, skipping exact duplicates already collected. -/
def buildFiltered (strict : Bool) : List String → List String → List String
  | acc, [] => acc
  | acc, e :: rest =>
    if passesFilters strict e && !(acc.contains e) then
      buildFiltered strict (acc ++ [e]) rest
    else buildFiltered strict acc rest

/-- Lines 303–307: first filtered candidate, or `""` when none survive. -/
def selectFilteredEmail (strict : Bool) (all_emails : List String) : String :=
  (buildFiltered strict [] all_emails).headD ""

/-- `extract_emails_from_website` (lines 215–311): sentinel/empty website
short-circuits to `""` before any fetch; otherwise normalize the URL,
fetch candidate pages, and apply the filter mode to the collected
matches.  The body's outer `except` (returning `""`) is subsumed by
totality of the model.  Returns `(email, attempted page URLs)`. -/
def extract_emails_from_website (fetch : String → Option (List String))
    (website_url : String) (email_filter_mode : Option String) : String × List String :=
  if website_url = "" ∨ website_url = "None Found" then ("", [])
  else
    let url := normalizeUrl website_url
    let collected := collectEmails fetch (pagesToTry url)
    let m := effectiveFilterMode email_filter_mode
    if m = "none" then (collected.1.headD "", collected.2)
    else (selectFilteredEmail (decide (m = "strict")) collected.1, collected.2)

/-! ### Retry decorator (lines 134–153) -/

/-- The loop of `retry_on_failure`'s wrapper, recursing on the number of
remaining attempts.  `f i` is attempt `i`'s outcome.  Returns the
produced outcome (`none` only when zero attempts were allowed, matching
the wrapper's fall-through `return None`) paired with the list of
back-off sleeps performed. -/
def retryAux {E A : Type} (f : Nat → Except E A) :
    Nat → Nat → Nat → Option (Except E A) × List Nat
  | _, 0, _ => (none, [])
  | attempt, 1, _ => (some (f attempt), [])
  | attempt, fuel + 2, d =>
    match f attempt with
    | .ok a => (some (.ok a), [])
    | .error _ =>
      let r := retryAux f (attempt + 1) (fuel + 1) (2 * d)
      (r.1, d :: r.2)

/-- `retry_on_failure(max_retries, delay)` applied to a fallible
operation: at most `max_retries` attempts, sleeping `delay, 2*delay, …`
between them; the last attempt's exception is re-raised. -/
def retry_on_failure {E A : Type} (max_retries delay : Nat)
    (f : Nat → Except E A) : Option (Except E A) × List Nat :=
  retryAux f 0 max_retries delay

/-! ### Listing discovery loop (lines 552–569) -/

/-- The scroll loop as a function of the per-round listing counts.
Arguments mirror the Python locals: `ms` = `max_scroll_attempts`,
`ml` = the (always-present after line 451–455) `max_listings` ceiling,
`sa` = `scroll_attempts`, `prev` = `previously_counted`; `counts` lists
the locator count observed in each successive round.  The result is
`some n` when the loop terminates after executing `n` rounds, and `none`
when the supplied rounds are exhausted with the loop still running. -/
def discoveryLoop (ms ml : Nat) : Nat → Nat → List Nat → Option Nat
  | sa, _, [] => if ms ≤ sa then some 0 else none
  | sa, prev, found :: rest =>
    if ms ≤ sa then some 0
    else if ml ≤ found then some 1
    else (discoveryLoop ms ml (if found = prev then sa + 1 else 0) found rest).map (· + 1)

/-- Modelled from the spec: the discovery loop as §4.4 and the claim
describe it, where a round whose count *did not increase* increments
`stagnantRounds` (the source increments only on an exactly unchanged
count and resets on any change).  Used solely to compare the claimed
behaviour with `discoveryLoop`. -/
def claimedDiscoveryLoop (ms ml : Nat) : Nat → Nat → List Nat → Option Nat
  | sa, _, [] => if ms ≤ sa then some 0 else none
  | sa, prev, found :: rest =>
    if ms ≤ sa then some 0
    else if ml ≤ found then some 1
    else (claimedDiscoveryLoop ms ml (if found ≤ prev then sa + 1 else 0) found rest).map (· + 1)

/-- The scan-ceiling default of lines 451–455: absent `max_listings`
defaults to the target; a supplied one is raised to at least the target.
Values are `Int` since Python callers may pass any integer. -/
def effective_max_listings (max_listings : Option Int) (total : Int) : Int :=
  match max_listings with
  | none => total
  | some m => max m total

/-- Modelled from the spec: the domain part of an email match — the text
after the `@` — named by the claim's malformedness test ("zero `.` in
the domain part").  Used solely to compare the claimed filter with the
source's whole-string dot count. -/
def domainPart (email : String) : String :=
  ⟨(email.data.dropWhile (fun c => ¬ c = '@')).drop 1⟩

/-! ### Store lemmas -/

theorem lookupFp_upsert_ne {f f' : String} (h : f ≠ f') (s : Store) (p : Place) :
    lookupFp (upsert_lead s f' p) f = lookupFp s f := by
  induction s with
  | nil => simp [upsert_lead, lookupFp, Ne.symm h]
  | cons head tail ih =>
    obtain ⟨k, v⟩ := head
    by_cases hk : k = f'
    · subst hk
      simp only [upsert_lead, if_pos rfl, lookupFp]
      by_cases hf : k = f
      · exact absurd hf.symm h
      · simp [hf]
    · simp only [upsert_lead, if_neg hk, lookupFp]
      by_cases hf : k = f
      · simp [hf]
      · simp [hf, ih]

theorem lookupFp_upsert_self_none {s : Store} {f : String}
    (h : lookupFp s f = none) (p : Place) :
    lookupFp (upsert_lead s f p) f = some (insertRec p) := by
  induction s with
  | nil => simp [upsert_lead, lookupFp]
  | cons head tail ih =>
    obtain ⟨k, v⟩ := head
    simp only [lookupFp] at h
    by_cases hk : k = f
    · simp [hk] at h
    · simp only [upsert_lead, if_neg hk, lookupFp, if_neg hk]
      exact ih (by simpa [hk] using h)

theorem lookupFp_upsert_self_some {s : Store} {f : String} {r : LeadRec}
    (h : lookupFp s f = some r) (p : Place) :
    lookupFp (upsert_lead s f p) f = some (mergeRec r p) := by
  induction s with
  | nil => simp [lookupFp] at h
  | cons head tail ih =>
    obtain ⟨k, v⟩ := head
    by_cases hk : k = f
    · subst hk
      simp [lookupFp] at h
      subst h
      simp [upsert_lead, lookupFp]
    · simp only [lookupFp, if_neg hk] at h
      simp only [upsert_lead, if_neg hk, lookupFp, if_neg hk]
      exact ih h

theorem mergeRec_insertRec (p : Place) : mergeRec (insertRec p) p = insertRec p := by
  simp [mergeRec, insertRec, ite_self]

theorem mergeRec_mergeRec (v : LeadRec) (p : Place) :
    mergeRec (mergeRec v p) p = mergeRec v p := by
  by_cases h : v.email = none ∨ v.email = some ""
  · simp [mergeRec, h, ite_self]
  · simp [mergeRec, h]

theorem upsert_lead_idem (store : Store) (f : String) (p : Place) :
    upsert_lead (upsert_lead store f p) f p = upsert_lead store f p := by
  induction store with
  | nil => simp [upsert_lead, mergeRec_insertRec]
  | cons head tail ih =>
    obtain ⟨k, v⟩ := head
    by_cases hk : k = f
    · simp [upsert_lead, hk, mergeRec_mergeRec]
    · simp [upsert_lead, hk, ih]

/-- A fingerprint whose stored row has a non-empty (after stripping)
email stays that way across any single upsert. -/
theorem strong_email_upsert {s : Store} {f : String} {r : LeadRec}
    (hr : lookupFp s f = some r) (hne : stripStr (r.email.getD "") ≠ "")
    (f' : String) (p : Place) :
    ∃ r2, lookupFp (upsert_lead s f' p) f = some r2 ∧ stripStr (r2.email.getD "") ≠ "" := by
  by_cases h : f = f'
  · subst h
    refine ⟨mergeRec r p, lookupFp_upsert_self_some hr p, ?_⟩
    have h1 : ¬ (r.email = none ∨ r.email = some "") := by
      rintro (h2 | h2) <;> rw [h2] at hne <;> exact hne (by decide)
    simpa [mergeRec, h1] using hne
  · rw [lookupFp_upsert_ne h]
    exact ⟨r, hr, hne⟩

/-- Strip-non-empty stored emails survive any sequence of upserts. -/
theorem strong_email_applyUpserts {s : Store} {f : String} {r : LeadRec}
    (hr : lookupFp s f = some r) (hne : stripStr (r.email.getD "") ≠ "")
    (ups : List (String × Place)) :
    ∃ r2, lookupFp (applyUpserts s ups) f = some r2 ∧ stripStr (r2.email.getD "") ≠ "" := by
  induction ups generalizing s r with
  | nil => exact ⟨r, hr, hne⟩
  | cons u rest ih =>
    obtain ⟨r2, hr2, hne2⟩ := strong_email_upsert hr hne u.1 u.2
    exact ih hr2 hne2

/-! ### Claim theorems -/

/-- C2 counterexample: the claim reads `is_duplicate` as returning true
whenever the fingerprint's row exists and its stored email is non-empty,
but the source strips the stored email first (line 87), so a
whitespace-only stored email — a non-empty string — behaves as absent:
with a non-empty candidate the call returns `false`. -/
theorem is_duplicate_counterexample :
    is_duplicate
        [("fp1", { name := "n", address := "", website := "", phone_number := "", email := some " " })]
        "fp1" "x" = false
    ∧ lookupFp
        [("fp1", { name := "n", address := "", website := "", phone_number := "", email := some " " })]
        "fp1" = some { name := "n", address := "", website := "", phone_number := "", email := some " " }
    ∧ (" " : String) ≠ "" :=
  ⟨by decide, by decide, by decide⟩

/-- C2 (amended): `is_duplicate store f e` is true iff a row with
fingerprint `f` exists and (its stored email is non-empty *after
stripping whitespace*, or `e` is empty); and once a fingerprint's stored
email is non-empty after stripping, every later `is_duplicate` call for
it — after any sequence of upserts — returns true regardless of the
candidate email. -/
theorem is_duplicate_spec (store : Store) (f e : String) :
    (is_duplicate store f e = true ↔
      ∃ r, lookupFp store f = some r ∧ (stripStr (r.email.getD "") ≠ "" ∨ e = ""))
    ∧ (∀ r, lookupFp store f = some r → stripStr (r.email.getD "") ≠ "" →
        ∀ ups : List (String × Place), is_duplicate (applyUpserts store ups) f e = true) := by
  constructor
  · unfold is_duplicate
    cases hl : lookupFp store f with
    | none => simp [hl]
    | some r =>
      by_cases hs : stripStr (r.email.getD "") ≠ ""
      · simp [hl, hs]
      · simp [hl, hs]
  · intro r hr hne ups
    obtain ⟨r2, hr2, hne2⟩ := strong_email_applyUpserts hr hne ups
    unfold is_duplicate
    rw [hr2]
    simp [hne2]

/-- C2 witness: a concrete store whose stored email is non-empty keeps
flagging duplicates after a further upsert under a different key. -/
theorem is_duplicate_spec_witness :
    is_duplicate
      (applyUpserts
        [("f", { name := "n", address := "", website := "", phone_number := "", email := some "a@b.c" })]
        [("g", { name := "m" })])
      "f" "zz" = true :=
  (is_duplicate_spec
      [("f", { name := "n", address := "", website := "", phone_number := "", email := some "a@b.c" })]
      "f" "zz").2
    { name := "n", address := "", website := "", phone_number := "", email := some "a@b.c" }
    rfl (by decide) [("g", { name := "m" })]

/-- C3: `upsert_lead` inserts a fresh row when the fingerprint is
absent; for an existing row it overwrites the identity fields
(name, address, website, phone) unconditionally with the Place's values
and replaces the stored email only when the stored one is NULL or the
empty string; and upserting the same Place twice equals a single upsert.
(The wall-clock `updated_at` column is outside the pure model.) -/
theorem upsert_lead_spec (store : Store) (f : String) (p : Place) :
    (lookupFp store f = none →
      lookupFp (upsert_lead store f p) f = some
        { name := p.name, address := p.address, website := p.website,
          phone_number := p.phone_number, email := some p.email })
    ∧ (∀ r, lookupFp store f = some r →
        lookupFp (upsert_lead store f p) f = some
          { name := p.name, address := p.address, website := p.website,
            phone_number := p.phone_number,
            email := if r.email = none ∨ r.email = some "" then some p.email else r.email })
    ∧ upsert_lead (upsert_lead store f p) f p = upsert_lead store f p :=
  ⟨fun h => lookupFp_upsert_self_none h p,
   fun _ h => lookupFp_upsert_self_some h p,
   upsert_lead_idem store f p⟩

/-- C3 witness: inserting into the empty store yields the Place's row. -/
theorem upsert_lead_spec_witness :
    lookupFp (upsert_lead [] "f" { name := "Shop", email := "a@b.c" }) "f" = some
      { name := "Shop", address := "", website := "",
        phone_number := "", email := some "a@b.c" } :=
  (upsert_lead_spec [] "f" { name := "Shop", email := "a@b.c" }).1 rfl

/-- C5 counterexample: two Places whose normalized names differ
(`"a|b"` vs `"a"`) nevertheless join to the identical identity key
`"a|b|c||"`, because the `"|"` separator also occurs inside a field
value; the fingerprint is a deterministic digest of that key
(`build_fingerprint h` for the fixed digest function `h` = SHA-256), so
identical keys force identical digests — shown here for a concrete
digest function.  Hence differing normalized fields do not guarantee
differing digests. -/
theorem build_fingerprint_counterexample :
    build_fingerprint_key { name := "a|b", address := "c" } =
      build_fingerprint_key { name := "a", address := "b|c" }
    ∧ build_fingerprint (fun s => s) { name := "a|b", address := "c" } =
      build_fingerprint (fun s => s) { name := "a", address := "b|c" }
    ∧ normalize_key (Place.name { name := "a|b", address := "c" }) ≠
      normalize_key (Place.name { name := "a", address := "b|c" }) :=
  ⟨by decide, by decide, by decide⟩

/-- C5 (amended): Places with pairwise equal whitespace-collapsed,
lower-cased name, address, phone and website yield the identical digest
under every deterministic digest function (in particular SHA-256); the
converse — differing normalized fields give differing digests — fails
because the join separator can be injected by field values. -/
theorem build_fingerprint_normalized (p q : Place)
    (h1 : normalize_key p.name = normalize_key q.name)
    (h2 : normalize_key p.address = normalize_key q.address)
    (h3 : normalize_key p.phone_number = normalize_key q.phone_number)
    (h4 : normalize_key p.website = normalize_key q.website)
    (h : String → String) :
    build_fingerprint h p = build_fingerprint h q := by
  unfold build_fingerprint build_fingerprint_key
  rw [h1, h2, h3, h4]

/-- C5 witness: two Places with equal normalized identity fields share
the fingerprint. -/
theorem build_fingerprint_normalized_witness :
    build_fingerprint (fun s => s) { name := " A" } =
      build_fingerprint (fun s => s) { name := "a " } :=
  build_fingerprint_normalized { name := " A" } { name := "a " }
    (by decide) (by decide) (by decide) (by decide) (fun s => s)

/-- C1: the orchestrator's save decision for a listing whose extraction
completed with Place `p`.  Save-eligibility is
`name ≠ "" ∧ (include_without_email ∨ email ≠ "")`; an ineligible place
is counted as a failed scrape and not appended; an eligible place whose
fingerprint `is_duplicate` flags (dedup enabled) is counted as a skipped
duplicate and neither appended nor upserted; otherwise it is appended,
counted as a successful scrape, and `emails_found` grows by one exactly
when the email is non-empty. -/
theorem processListing_save_rules (iwe xe de : Bool) (fp : Place → String)
    (place : Place) (places : List Place) (stats : ScrapingStats) (store : Store) :
    (¬ (place.name ≠ "" ∧ (iwe = true ∨ place.email ≠ "")) →
      (processListing iwe xe de fp (.ok place) places stats store).places = places
      ∧ (processListing iwe xe de fp (.ok place) places stats store).store = store
      ∧ (processListing iwe xe de fp (.ok place) places stats store).stats.failed_scrapes
          = stats.failed_scrapes + 1
      ∧ (processListing iwe xe de fp (.ok place) places stats store).stats.successful_scrapes
          = stats.successful_scrapes
      ∧ (processListing iwe xe de fp (.ok place) places stats store).stats.duplicates_skipped
          = stats.duplicates_skipped
      ∧ (processListing iwe xe de fp (.ok place) places stats store).stats.emails_found
          = stats.emails_found)
    ∧ ((place.name ≠ "" ∧ (iwe = true ∨ place.email ≠ "")) →
        de = true → is_duplicate store (fp place) place.email = true →
      (processListing iwe xe de fp (.ok place) places stats store).places = places
      ∧ (processListing iwe xe de fp (.ok place) places stats store).store = store
      ∧ (processListing iwe xe de fp (.ok place) places stats store).stats.duplicates_skipped
          = stats.duplicates_skipped + 1
      ∧ (processListing iwe xe de fp (.ok place) places stats store).stats.successful_scrapes
          = stats.successful_scrapes
      ∧ (processListing iwe xe de fp (.ok place) places stats store).stats.failed_scrapes
          = stats.failed_scrapes)
    ∧ ((place.name ≠ "" ∧ (iwe = true ∨ place.email ≠ "")) →
        ¬ (de = true ∧ is_duplicate store (fp place) place.email = true) →
      (processListing iwe xe de fp (.ok place) places stats store).places = places ++ [place]
      ∧ (processListing iwe xe de fp (.ok place) places stats store).stats.successful_scrapes
          = stats.successful_scrapes + 1
      ∧ (place.email ≠ "" →
          (processListing iwe xe de fp (.ok place) places stats store).stats.emails_found
            = stats.emails_found + 1)
      ∧ (place.email = "" →
          (processListing iwe xe de fp (.ok place) places stats store).stats.emails_found
            = stats.emails_found)) := by
  refine ⟨fun h1 => ?_, fun h1 h2 h3 => ?_, fun h1 h2 => ?_⟩
  · have hc1 : ¬ ((place.name ≠ "" ∧ (iwe = true ∨ place.email ≠ "")) ∧ de = true ∧
        is_duplicate store (fp place) place.email = true) := fun hx => h1 hx.1
    simp only [processListing]
    rw [if_neg hc1, if_neg h1]
    simp [apply_ite]
  · simp only [processListing]
    rw [if_pos ⟨h1, h2, h3⟩]
    simp [apply_ite]
  · have hc : ¬ ((place.name ≠ "" ∧ (iwe = true ∨ place.email ≠ "")) ∧ de = true ∧
        is_duplicate store (fp place) place.email = true) := fun hx => h2 hx.2
    simp only [processListing]
    rw [if_neg hc, if_pos h1]
    by_cases he : place.email = "" <;> simp [he, apply_ite]

/-- C1 witness: concrete runs through each branch of the save decision:
a nameless listing fails, a duplicate is skipped without append/upsert,
and a fresh eligible listing with an email is appended and counted. -/
theorem processListing_save_rules_witness :
    (processListing false true true (fun _ => "k") (.ok { name := "" })
        [] {} []).stats.failed_scrapes = 0 + 1
    ∧ (processListing false true true (fun _ => "k")
        (.ok { name := "Shop", email := "a@b.c" }) [] {}
        [("k", { name := "Shop", address := "", website := "",
                 phone_number := "", email := some "a@b.c" })]).stats.duplicates_skipped = 0 + 1
    ∧ (processListing false true true (fun _ => "k")
        (.ok { name := "Shop", email := "a@b.c" }) [] {} []).stats.successful_scrapes = 0 + 1 :=
  ⟨((processListing_save_rules false true true (fun _ => "k") { name := "" } [] {} []).1
      (by decide)).2.2.1,
   ((processListing_save_rules false true true (fun _ => "k") { name := "Shop", email := "a@b.c" }
      [] {} [("k", { name := "Shop", address := "", website := "",
                     phone_number := "", email := some "a@b.c" })]).2.1
      (by decide) rfl (by decide)).2.2.1,
   ((processListing_save_rules false true true (fun _ => "k") { name := "Shop", email := "a@b.c" }
      [] {} []).2.2
      (by decide) (by rintro ⟨-, hdup⟩; exact absurd hdup (by decide))).2.1⟩

/-- All candidate pages failing to fetch yields no collected emails and
an attempt on every page. -/
theorem collectEmails_none {fetch : String → Option (List String)}
    (h : ∀ u, fetch u = none) (pages : List String) :
    collectEmails fetch pages = ([], pages) := by
  induction pages with
  | nil => rfl
  | cons u rest ih => simp [collectEmails, h u, ih]

/-- C7: the retry policy built by `retry_on_failure(max_retries=3, delay=1)`
makes up to 3 attempts, sleeping 1 then 2 time units between them, and
re-raises the third attempt's failure; a resolver whose every page fetch
fails surfaces `""` (no email found); and an exception while processing a
listing is absorbed as one `failed_scrapes` increment — the run's state
is otherwise untouched, never aborted. -/
theorem retry_and_listing_failure (E A : Type) (f : Nat → Except E A) (e0 e1 e2 : E) (a : A)
    (fetch : String → Option (List String)) (url : String) (mode : Option String)
    (iwe xe de : Bool) (fp : Place → String) (err : String)
    (places : List Place) (stats : ScrapingStats) (store : Store) :
    (f 0 = .error e0 → f 1 = .error e1 → f 2 = .error e2 →
      retry_on_failure 3 1 f = (some (.error e2), [1, 2]))
    ∧ (f 0 = .error e0 → f 1 = .ok a →
      retry_on_failure 3 1 f = (some (.ok a), [1]))
    ∧ (f 0 = .ok a → retry_on_failure 3 1 f = (some (.ok a), []))
    ∧ ((∀ u, fetch u = none) → (extract_emails_from_website fetch url mode).1 = "")
    ∧ processListing iwe xe de fp (.error err) places stats store =
        ⟨places, { stats with failed_scrapes := stats.failed_scrapes + 1 }, store⟩ := by
  refine ⟨fun h0 h1 h2 => ?_, fun h0 h1 => ?_, fun h0 => ?_, fun hf => ?_, rfl⟩
  · show retryAux f 0 3 1 = _
    rw [retryAux, h0, retryAux, h1, retryAux, h2]
  · show retryAux f 0 3 1 = _
    rw [retryAux, h0, retryAux, h1]
  · show retryAux f 0 3 1 = _
    rw [retryAux, h0]
  · unfold extract_emails_from_website
    split
    · rfl
    · simp [collectEmails_none hf, selectFilteredEmail, buildFiltered, apply_ite]

/-- C7 witness: a concrete always-failing operation is retried twice with
sleeps 1 and 2 and its final error is re-raised; a succeed-on-second-try
operation sleeps once; an immediate success never sleeps; an
all-fetches-fail resolver returns `""`. -/
theorem retry_and_listing_failure_witness :
    retry_on_failure 3 1 (fun _ => (Except.error "boom" : Except String Unit))
      = (some (.error "boom"), [1, 2])
    ∧ retry_on_failure 3 1
        (fun i => if i = 0 then (Except.error "boom" : Except String Nat) else Except.ok 7)
      = (some (.ok 7), [1])
    ∧ retry_on_failure 3 1 (fun _ => (Except.ok 7 : Except String Nat)) = (some (.ok 7), [])
    ∧ (extract_emails_from_website (fun _ => none) "shop.com" (some "strict")).1 = "" :=
  ⟨(retry_and_listing_failure String Unit (fun _ => .error "boom") "boom" "boom" "boom" ()
      (fun _ => none) "shop.com" (some "strict") false false false (fun _ => "k") "e"
      [] {} []).1 rfl rfl rfl,
   (retry_and_listing_failure String Nat
      (fun i => if i = 0 then Except.error "boom" else Except.ok 7) "boom" "boom" "boom" 7
      (fun _ => none) "shop.com" (some "strict") false false false (fun _ => "k") "e"
      [] {} []).2.1 rfl rfl,
   (retry_and_listing_failure String Nat (fun _ => Except.ok 7) "boom" "boom" "boom" 7
      (fun _ => none) "shop.com" (some "strict") false false false (fun _ => "k") "e"
      [] {} []).2.2.1 rfl,
   (retry_and_listing_failure String Nat (fun _ => Except.ok 7) "boom" "boom" "boom" 7
      (fun _ => none) "shop.com" (some "strict") false false false (fun _ => "k") "e"
      [] {} []).2.2.2.1 (fun _ => rfl)⟩

/-- C8: a website of `"None Found"` or `""` short-circuits the resolver
to `""` with an empty fetch log (no network call); and in the
orchestrator, with email extraction requested, a listing whose website
is `"None Found"` or `""` leaves `websites_visited` unchanged. -/
theorem resolver_short_circuit (fetch : String → Option (List String)) (mode : Option String)
    (iwe de : Bool) (fp : Place → String) (place : Place)
    (places : List Place) (stats : ScrapingStats) (store : Store) :
    extract_emails_from_website fetch "None Found" mode = ("", [])
    ∧ extract_emails_from_website fetch "" mode = ("", [])
    ∧ (place.website = "None Found" ∨ place.website = "" →
        (processListing iwe true de fp (.ok place) places stats store).stats.websites_visited
          = stats.websites_visited) := by
  refine ⟨by simp [extract_emails_from_website], by simp [extract_emails_from_website],
    fun h => ?_⟩
  rcases h with h | h <;>
    (simp only [processListing]; split_ifs <;> simp_all)

/-- C8 witness: concrete listings with website `"None Found"` and with an
empty website, under email extraction, both leave `websites_visited` at
zero. -/
theorem resolver_short_circuit_witness :
    (processListing false true true (fun _ => "k")
        (.ok { name := "Shop", website := "None Found", email := "a@b.c" })
        [] {} []).stats.websites_visited = ScrapingStats.websites_visited {}
    ∧ (processListing false true true (fun _ => "k")
        (.ok { name := "Shop", website := "", email := "a@b.c" })
        [] {} []).stats.websites_visited = ScrapingStats.websites_visited {} :=
  ⟨(resolver_short_circuit (fun _ => none) none false true (fun _ => "k")
      { name := "Shop", website := "None Found", email := "a@b.c" } [] {} []).2.2 (Or.inl rfl),
   (resolver_short_circuit (fun _ => none) none false true (fun _ => "k")
      { name := "Shop", website := "", email := "a@b.c" } [] {} []).2.2 (Or.inr rfl)⟩

/-- C4 counterexample: with `maxScrollAttempts = 1` and round counts
`1, 0, 1` every round changes the count, so the source loop resets
`scroll_attempts` each round and is still scrolling after all three
rounds (`none`), while the claimed loop — stagnation on every
non-increasing round — would already have terminated after round 2. -/
theorem discoveryLoop_counterexample :
    discoveryLoop 1 100 0 0 [1, 0, 1] = none
    ∧ claimedDiscoveryLoop 1 100 0 0 [1, 0, 1] = some 2 :=
  ⟨by decide, by decide⟩

/-- Once the round counts stay constant, the loop terminates within
`ms` further rounds. -/
theorem discoveryLoop_const_ne_none (ms ml c : Nat) (rest : List Nat) :
    ∀ n sa, ms ≤ sa + n → discoveryLoop ms ml sa c (List.replicate n c ++ rest) ≠ none := by
  intro n
  induction n with
  | zero =>
    intro sa h
    have h' : ms ≤ sa := by simpa using h
    cases rest with
    | nil => simp [discoveryLoop, h']
    | cons r rs => simp [discoveryLoop, h']
  | succ n ih =>
    intro sa h
    by_cases hsa : ms ≤ sa
    · simp [List.replicate_succ, discoveryLoop, hsa]
    · by_cases hml : ml ≤ c
      · simp [List.replicate_succ, discoveryLoop, hsa, hml]
      · have hinner : discoveryLoop ms ml (sa + 1) c (List.replicate n c ++ rest) ≠ none :=
          ih (sa + 1) (by omega)
        simp only [List.replicate_succ, List.cons_append, discoveryLoop, if_neg hsa,
          if_neg hml, if_pos rfl, Ne, Option.map_eq_none']
        exact hinner

/-- C4 (amended): a round whose count *equals* the previous round's
count increments `scroll_attempts`; a round whose count changed — up or
down — resets it to 0; the loop stops once the count reaches the scan
ceiling or `scroll_attempts` reaches `maxScrollAttempts`; consequently
it terminates whenever the count holds constant for
`maxScrollAttempts + 1` consecutive rounds, regardless of the ceiling
(a strictly decreasing count resets the stagnation counter, so merely
non-increasing rounds need not terminate the loop). -/
theorem discoveryLoop_spec (ms ml sa prev found c : Nat) (rest : List Nat) :
    (ms ≤ sa → discoveryLoop ms ml sa prev (found :: rest) = some 0)
    ∧ (sa < ms → ml ≤ found → discoveryLoop ms ml sa prev (found :: rest) = some 1)
    ∧ (sa < ms → found < ml →
        discoveryLoop ms ml sa prev (found :: rest) =
          (discoveryLoop ms ml (if found = prev then sa + 1 else 0) found rest).map (· + 1))
    ∧ discoveryLoop ms ml sa prev (List.replicate (ms + 1) c ++ rest) ≠ none := by
  refine ⟨fun h => by simp [discoveryLoop, h],
    fun h1 h2 => by simp [discoveryLoop, Nat.not_le.mpr h1, h2],
    fun h1 h2 => by simp [discoveryLoop, Nat.not_le.mpr h1, Nat.not_le.mpr h2],
    ?_⟩
  by_cases hsa : ms ≤ sa
  · simp [List.replicate_succ, discoveryLoop, hsa]
  · by_cases hml : ml ≤ c
    · simp [List.replicate_succ, discoveryLoop, hsa, hml]
    · have hinner : discoveryLoop ms ml (if c = prev then sa + 1 else 0) c
          (List.replicate ms c ++ rest) ≠ none := by
        refine discoveryLoop_const_ne_none ms ml c rest ms _ ?_
        split <;> omega
      simp only [List.replicate_succ, List.cons_append, discoveryLoop, if_neg hsa,
        if_neg hml, Ne, Option.map_eq_none']
      exact hinner

/-- C4 witness: concrete rounds exercising the stop-by-stagnation guard,
the stop-by-ceiling guard, the per-round transition, and termination
under a constant count. -/
theorem discoveryLoop_spec_witness :
    discoveryLoop 2 100 2 0 [5] = some 0
    ∧ discoveryLoop 2 3 0 0 [7] = some 1
    ∧ discoveryLoop 2 100 0 0 [5, 5, 5] =
        (discoveryLoop 2 100 (if 5 = 0 then 0 + 1 else 0) 5 [5, 5]).map (· + 1)
    ∧ discoveryLoop 2 100 0 0 (List.replicate 3 4 ++ []) ≠ none :=
  ⟨(discoveryLoop_spec 2 100 2 0 5 0 []).1 (by decide),
   (discoveryLoop_spec 2 3 0 0 7 0 []).2.1 (by decide) (by decide),
   (discoveryLoop_spec 2 100 0 0 5 0 [5, 5]).2.2.1 (by decide) (by decide),
   (discoveryLoop_spec 2 100 0 0 5 4 []).2.2.2⟩

/-- C6 counterexample: under strict mode the resolver *returns*
`"a.b@xyz"` — a match with exactly one `@` but zero `.` in its domain
part — because the source's malformedness test (line 295) counts dots
over the whole match, not the domain part; the claim instead demands the
match be discarded as malformed. -/
theorem email_filter_counterexample :
    selectFilteredEmail true ["a.b@xyz"] = "a.b@xyz"
    ∧ countChar "a.b@xyz" '@' = 1
    ∧ countChar (domainPart "a.b@xyz") '.' = 0 :=
  ⟨by decide, by decide, by decide⟩

/-- The accumulation loop only ever appends to its accumulator. -/
theorem buildFiltered_acc (strict : Bool) :
    ∀ (es acc : List String), ∃ t, buildFiltered strict acc es = acc ++ t := by
  intro es
  induction es with
  | nil => exact fun acc => ⟨[], by simp [buildFiltered]⟩
  | cons e rest ih =>
    intro acc
    by_cases hp : (passesFilters strict e && !(acc.contains e)) = true
    · obtain ⟨t, ht⟩ := ih (acc ++ [e])
      refine ⟨e :: t, ?_⟩
      rw [buildFiltered, if_pos hp, ht]
      simp
    · obtain ⟨t, ht⟩ := ih acc
      refine ⟨t, ?_⟩
      rw [buildFiltered, if_neg hp, ht]

/-- C6 (amended): under balanced or strict mode the resolver returns the
first candidate, in original scan order, that contains no placeholder
fragment, no file-extension or device-suffix substring, has exactly one
`@` and at least one `.` anywhere in the match (the dot test is over the
whole match, not the domain part), and — in strict mode only — contains
no role-account keyword; duplicate skipping never changes which match
comes first, and `""` is returned when no candidate survives. -/
theorem email_filter_spec (strict : Bool) (all_emails : List String) :
    selectFilteredEmail strict all_emails =
      (all_emails.find? (passesFilters strict)).getD "" := by
  unfold selectFilteredEmail
  induction all_emails with
  | nil => rfl
  | cons e rest ih =>
    by_cases hp : passesFilters strict e = true
    · obtain ⟨t, ht⟩ := buildFiltered_acc strict rest [e]
      have hcond : (passesFilters strict e && !(([] : List String).contains e)) = true := by
        simp [hp]
      rw [buildFiltered, if_pos hcond, List.nil_append, ht, List.find?_cons_of_pos _ hp]
      simp
    · have hcond : ¬ ((passesFilters strict e && !(([] : List String).contains e)) = true) := by
        simp [hp]
      rw [buildFiltered, if_neg hcond, List.find?_cons_of_neg _ (by simp [hp]), ih]

/-- C9: the effective scan ceiling is the target when `max_listings` is
not supplied, and `max(max_listings, total)` when it is — in both cases
at least the target, so the per-listing loop's ceiling check can never
fire below the target lead count. -/
theorem effective_max_listings_spec (ml : Option Int) (total : Int) :
    (ml = none → effective_max_listings ml total = total)
    ∧ (∀ m, ml = some m → effective_max_listings ml total = max m total)
    ∧ total ≤ effective_max_listings ml total := by
  refine ⟨?_, ?_, ?_⟩ <;> cases ml <;>
    simp [effective_max_listings, le_max_right]

/-- C9 witness: a caller-supplied ceiling of 2 with target 7 is raised
to 7. -/
theorem effective_max_listings_spec_witness :
    effective_max_listings none 7 = 7
    ∧ effective_max_listings (some 2) 7 = max 2 7
    ∧ (7 : Int) ≤ effective_max_listings (some 2) 7 :=
  ⟨(effective_max_listings_spec none 7).1 rfl,
   (effective_max_listings_spec (some 2) 7).2.1 2 rfl,
   (effective_max_listings_spec (some 2) 7).2.2⟩

/-- C10: any filter-mode argument — `None` or a string — whose
lower-casing is not one of `"strict"`, `"balanced"`, `"none"` (the empty
string included) makes the resolver behave exactly as in strict mode:
the effective mode is `"strict"` (so filtering is never disabled) and
the resolver's output coincides with the strict-mode output on every
input. -/
theorem filter_mode_fallback (m : Option String)
    (h : ∀ s, m = some s →
      strLower s ≠ "strict" ∧ strLower s ≠ "balanced" ∧ strLower s ≠ "none")
    (fetch : String → Option (List String)) (url : String) :
    effectiveFilterMode m = "strict"
    ∧ extract_emails_from_website fetch url m
        = extract_emails_from_website fetch url (some "strict") := by
  have hm : effectiveFilterMode m = "strict" := by
    cases m with
    | none => decide
    | some s =>
      obtain ⟨h1, h2, h3⟩ := h s rfl
      by_cases hs : s = ""
      · subst hs; decide
      · simp [effectiveFilterMode, hs, h1, h2, h3]
  have hstrict : effectiveFilterMode (some "strict") = "strict" := by decide
  exact ⟨hm, by simp only [extract_emails_from_website, hm, hstrict]⟩

/-- C10 witness: the unrecognized mode `"AGGRESSIVE"` falls back to
strict behaviour on a concrete fetch. -/
theorem filter_mode_fallback_witness :
    effectiveFilterMode (some "AGGRESSIVE") = "strict"
    ∧ extract_emails_from_website (fun _ => some ["bob@shop.com"]) "shop.com"
        (some "AGGRESSIVE")
      = extract_emails_from_website (fun _ => some ["bob@shop.com"]) "shop.com"
        (some "strict") :=
  filter_mode_fallback (some "AGGRESSIVE")
    (fun s hs => by cases hs; exact ⟨by decide, by decide, by decide⟩)
    (fun _ => some ["bob@shop.com"]) "shop.com"

end Scraper
